import Mathlib

/-!
Shallow embedding of the provider adapter layer of ddns-updater:
the Namecheap adapter (simple, single-call pattern,
src/unnamed/part_000) and the DigitalOcean adapter (two-step,
lookup-then-mutate pattern,
src/internal/settings/providers/digitalocean/digitalocean.go).

Go standard-library functions used by the adapters (net.ParseIP,
net.IP.Equal, net.IP.String, net.IP.To4, json/xml decoding, the HTTP
client) are not code of this repository; they are abstracted as
oracle parameters: `NetLib` packages the net.IP operations, and an
`HttpExchange` value records what one HTTP round trip would yield
(request-construction error, client.Do error, status code, the
single-line body snapshot, and the decoder's outcome on the body).
All repository logic — branch order, error selection and wrapping,
which request fields are set — is transcribed from the source.
-/

namespace DdnsUpdater

/-- pkg/publicip/ipversion: the IP version enum (IP4, IP6, IP4or6). -/
inductive IPVersion where
  | ip4
  | ip6
  | ip4or6
deriving DecidableEq, Repr

/-- Abstraction of the Go net library operations the adapters call.
`γ` is the type of `net.IP` values; since Go's `net.IP` is a slice
type whose nil value is a legitimate inhabitant, nil-ness is a
predicate `isNil` on `γ` rather than an `Option` layer, `parseIP`
models `net.ParseIP` (returning a nil value on malformed input),
`ipEqual` models `net.IP.Equal`, `ipToString` models `net.IP.String`
(which renders a nil IP as the string "<nil>"), and `isIPv4` models
`ip.To4() != nil`. -/
structure NetLib (γ : Type) where
  parseIP : String → γ
  isNil : γ → Bool
  ipEqual : γ → γ → Bool
  ipToString : γ → String
  isIPv4 : γ → Bool

/-- The error values produced by the two adapters: the sentinel errors
of internal/settings/errors that they use, the wrapping performed with
fmt.Errorf, and the two plain (non-sentinel) fmt.Errorf errors of the
DigitalOcean Update response check. -/
inductive Err where
  | ipv6NotSupported
  | unmarshalConfig (msg : String)
  | malformedPassword
  | emptyToken
  | requestCreate (msg : String)
  | clientDo (msg : String)
  | badHTTPStatus (code : Nat) (bodyLine : String)
  | unmarshalResponse (msg : String)
  | unsuccessfulResponse (msg : String)
  | ipReceivedMalformed (s : String)
  | ipReceivedMismatch (s : String)
  | notFound
  | domainIDNotFound
  | wrapGetRecordID (e : Err)
  | requestEncode (msg : String)
  | updatedIPMalformed (s : String)
  | updatedIPMismatch (newIP sent : String)
deriving DecidableEq, Repr

/-- One HTTP round trip, as seen by the adapter code: whether
http.NewRequestWithContext failed, whether client.Do failed, and
otherwise the response status code, the single-line body snapshot
(utils.BodyToSingleLine's result, used only in the bad-status error),
and the outcome of decoding the body into the shape `β` the adapter
expects. -/
structure HttpExchange (β : Type) where
  reqError : Option String
  doError : Option String
  statusCode : Nat
  bodyLine : String
  decoded : Except String β
deriving Repr

namespace constants

/-- internal/settings/constants: the A record type string. -/
def A : String := "A"

/-- internal/settings/constants: the AAAA record type string. -/
def AAAA : String := "AAAA"

end constants

/-- Modelled from the spec: `utils.BuildDomainName` is code of this
repository that is not under src/. The spec describes it as the
deterministic concatenation of host and domain into the
fully-qualified name the vendor API expects, handling the
apex/wildcard host sentinel specially: the apex sentinel "@" yields
the bare domain; otherwise the host is prepended with a dot. -/
def buildDomainName (host domain : String) : String :=
  if host = "@" then domain else host ++ "." ++ domain

/-! ## Namecheap (simple, single-call pattern) -/

/-- The vendor-specific configuration blob shape for Namecheap, as
json.Unmarshal produces it: {"password": ..., "provider_ip": ...}. -/
structure NamecheapSettings where
  password : String
  useProviderIP : Bool
deriving DecidableEq, Repr

/-- The namecheap adapter struct. `matcher` is the injected
regex.Matcher dependency, of which only its NamecheapPassword method
is used; it is kept as the function it is. -/
structure Namecheap where
  domain : String
  host : String
  ipVersion : IPVersion
  password : String
  useProviderIP : Bool
  matcher : String → Bool

/-- (*namecheap).isValid: the password must match the matcher's
NamecheapPassword shape check. -/
def Namecheap.isValid (n : Namecheap) : Option Err :=
  if n.matcher n.password then none else some .malformedPassword

/-- namecheap.New. The configuration blob is abstracted as the outcome
of json.Unmarshal on it: either a decoding error message or the parsed
settings. The branch order is the source's: the IPv6 check first, then
unmarshalling, then isValid. New takes no HTTP exchange: it performs
no network call. -/
def namecheapNew (data : Except String NamecheapSettings) (domain host : String)
    (ipVersion : IPVersion) (matcher : String → Bool) : Except Err Namecheap :=
  if ipVersion = .ip6 then
    .error .ipv6NotSupported
  else
    match data with
    | .error m => .error (.unmarshalConfig m)
    | .ok s =>
      let n : Namecheap :=
        { domain := domain, host := host, ipVersion := ipVersion,
          password := s.password, useProviderIP := s.useProviderIP,
          matcher := matcher }
      match n.isValid with
      | some e => .error e
      | none => .ok n

/-- (*namecheap).Domain. -/
def Namecheap.Domain (n : Namecheap) : String := n.domain

/-- (*namecheap).Host. -/
def Namecheap.Host (n : Namecheap) : String := n.host

/-- (*namecheap).IPVersion. -/
def Namecheap.IPVersion (n : Namecheap) : IPVersion := n.ipVersion

/-- The GET request namecheap.Update builds: query parameters host,
domain, password, and the ip only when useProviderIP is false
(`values.Set("ip", ip.String())` is skipped otherwise). -/
structure NamecheapRequest where
  scheme : String
  apiHost : String
  path : String
  queryHost : String
  queryDomain : String
  queryPassword : String
  queryIP : Option String
deriving DecidableEq, Repr

/-- The request namecheap.Update sends, as a function of the adapter
and the ip argument. -/
def namecheapRequest {γ : Type} (lib : NetLib γ) (n : Namecheap) (ip : γ) :
    NamecheapRequest :=
  { scheme := "https", apiHost := "dynamicdns.park-your-domain.com",
    path := "/update", queryHost := n.host, queryDomain := n.domain,
    queryPassword := n.password,
    queryIP := if n.useProviderIP then none else some (lib.ipToString ip) }

/-- The decoded XML response body shape of the Namecheap endpoint:
the nested errors.Err1 field and the IP field. -/
structure NamecheapXML where
  errorsErr : String
  ipStr : String
deriving DecidableEq, Repr

/-- (*namecheap).Update, transcribed branch for branch: request
construction error, client.Do error, the status != 200 check producing
ErrBadHTTPStatus with the code and single-line body, the XML decode
producing ErrUnmarshalResponse on failure, the in-band error field
producing ErrUnsuccessfulResponse when non-empty, net.ParseIP on the
reported IP producing ErrIPReceivedMalformed when nil, and the
`ip != nil && !ip.Equal(newIP)` check producing ErrIPReceivedMismatch;
otherwise the reported IP is returned. -/
def namecheapUpdate {γ : Type} (lib : NetLib γ) (n : Namecheap) (ip : γ)
    (w : HttpExchange NamecheapXML) : Except Err γ :=
  match w.reqError with
  | some m => .error (.requestCreate m)
  | none =>
    match w.doError with
    | some m => .error (.clientDo m)
    | none =>
      if w.statusCode ≠ 200 then
        .error (.badHTTPStatus w.statusCode w.bodyLine)
      else
        match w.decoded with
        | .error m => .error (.unmarshalResponse m)
        | .ok xml =>
          if xml.errorsErr ≠ "" then
            .error (.unsuccessfulResponse xml.errorsErr)
          else
            let newIP := lib.parseIP xml.ipStr
            if lib.isNil newIP then
              .error (.ipReceivedMalformed xml.ipStr)
            else if !lib.isNil ip && !lib.ipEqual ip newIP then
              .error (.ipReceivedMismatch (lib.ipToString newIP))
            else
              .ok newIP

/-! ## DigitalOcean (two-step, lookup-then-mutate pattern) -/

/-- The vendor-specific configuration blob shape for DigitalOcean, as
json.Unmarshal produces it: {"token": ...}. -/
structure DOSettings where
  token : String
deriving DecidableEq, Repr

/-- The digitalOcean adapter struct. -/
structure DigitalOcean where
  domain : String
  host : String
  ipVersion : IPVersion
  token : String
deriving DecidableEq, Repr

/-- (*digitalOcean).isValid: the token must be non-empty. -/
def DigitalOcean.isValid (d : DigitalOcean) : Option Err :=
  if d.token.length = 0 then some .emptyToken else none

/-- digitalocean.New. The configuration blob is abstracted as the
outcome of json.Unmarshal on it. No IP-version restriction exists for
this vendor; unmarshalling is followed by isValid. New takes no HTTP
exchange: it performs no network call. -/
def digitalOceanNew (data : Except String DOSettings) (domain host : String)
    (ipVersion : IPVersion) : Except Err DigitalOcean :=
  match data with
  | .error m => .error (.unmarshalConfig m)
  | .ok s =>
    let d : DigitalOcean :=
      { domain := domain, host := host, ipVersion := ipVersion,
        token := s.token }
    match d.isValid with
    | some e => .error e
    | none => .ok d

/-- (*digitalOcean).Domain. -/
def DigitalOcean.Domain (d : DigitalOcean) : String := d.domain

/-- (*digitalOcean).Host. -/
def DigitalOcean.Host (d : DigitalOcean) : String := d.host

/-- (*digitalOcean).IPVersion. -/
def DigitalOcean.IPVersion (d : DigitalOcean) : IPVersion := d.ipVersion

/-- The decoded JSON body of the lookup response: the ids of the
domain_records list (a record object whose "id" key is absent decodes
to the Go zero value 0). -/
structure DORecordList where
  ids : List Int
deriving DecidableEq, Repr

/-- The GET request getRecordID builds: the records path under the
domain, filtered by the "name" and "type" query parameters. -/
structure DOLookupRequest where
  scheme : String
  apiHost : String
  path : String
  queryName : String
  queryType : String
deriving DecidableEq, Repr

/-- The lookup request, as a function of the adapter and record type:
`values.Set("name", d.BuildDomainName())` and
`values.Set("type", recordType)`. -/
def doLookupRequest (d : DigitalOcean) (recordType : String) : DOLookupRequest :=
  { scheme := "https", apiHost := "api.digitalocean.com",
    path := "/v2/domains/" ++ d.domain ++ "/records",
    queryName := buildDomainName d.host d.domain,
    queryType := recordType }

/-- (*digitalOcean).getRecordID, transcribed branch for branch:
request construction error, client.Do error, the status != 200 check
producing ErrBadHTTPStatus, the JSON decode producing
ErrUnmarshalResponse on failure, then ErrNotFound on an empty
domain_records list, ErrDomainIDNotFound when the first record's id
is 0, and otherwise the first record's id. -/
def getRecordID (d : DigitalOcean) (recordType : String)
    (w : HttpExchange DORecordList) : Except Err Int :=
  match w.reqError with
  | some m => .error (.requestCreate m)
  | none =>
    match w.doError with
    | some m => .error (.clientDo m)
    | none =>
      if w.statusCode ≠ 200 then
        .error (.badHTTPStatus w.statusCode w.bodyLine)
      else
        match w.decoded with
        | .error m => .error (.unmarshalResponse m)
        | .ok recs =>
          match recs.ids with
          | [] => .error .notFound
          | id0 :: _ => if id0 = 0 then .error .domainIDNotFound else .ok id0

/-- The JSON body of the mutation (PUT) request:
{type, name, data}. The name field is d.host, the bare host. -/
structure DOPutBody where
  type : String
  name : String
  data : String
deriving DecidableEq, Repr

/-- The PUT request digitalOcean.Update builds: the record path
parameterized by the resolved record id, carrying the JSON body. -/
structure DOPutRequest where
  scheme : String
  apiHost : String
  domain : String
  recordID : Int
  body : DOPutBody
deriving DecidableEq, Repr

/-- The mutation request with the given resolved record id and
body, at the fixed DigitalOcean API host. -/
def doPutRequestOf (d : DigitalOcean) (rid : Int) (body : DOPutBody) :
    DOPutRequest :=
  { scheme := "https", apiHost := "api.digitalocean.com",
    domain := d.domain, recordID := rid, body := body }

/-- One entry of the sequence of HTTP requests a DigitalOcean Update
call hands to the client, in order. -/
inductive DORequestLog where
  | lookup (r : DOLookupRequest)
  | put (r : DOPutRequest)
deriving DecidableEq, Repr

/-- Whether a logged request is the mutation (PUT) request. -/
def DORequestLog.isPut : DORequestLog → Bool
  | .put _ => true
  | .lookup _ => false

/-- The DNS record type digitalOcean.Update selects: A when
`ip.To4() != nil`, AAAA otherwise. -/
def doRecordType {γ : Type} (lib : NetLib γ) (ip : γ) : String :=
  if lib.isIPv4 ip then constants.A else constants.AAAA

/-- (*digitalOcean).Update, transcribed branch for branch, returning
the result together with the list of requests handed to client.Do, in
order. The record type is A or AAAA from the shape of ip; getRecordID
runs first and any error from it is returned wrapped in
ErrGetRecordID, with no mutation request issued; then the JSON body
{type, name = d.host, data = ip.String()} is encoded (encoding failure
is ErrRequestEncode), the PUT request is built and executed, a
status != 200 is ErrBadHTTPStatus, a decode failure is
ErrUnmarshalResponse, the echoed domain_record.data field is parsed as
an IP (nil is the plain malformed-IP error), and a parsed IP not equal
to the sent ip is the plain mismatch error; otherwise the echoed IP is
returned. `encodeError` abstracts the json encoder's outcome on the
outbound body. -/
def digitalOceanUpdate {γ : Type} (lib : NetLib γ) (d : DigitalOcean) (ip : γ)
    (wLookup : HttpExchange DORecordList) (encodeError : Option String)
    (wPut : HttpExchange String) : Except Err γ × List DORequestLog :=
  let recordType := doRecordType lib ip
  let lookupLog : List DORequestLog :=
    if wLookup.reqError = none then [.lookup (doLookupRequest d recordType)] else []
  match getRecordID d recordType wLookup with
  | .error e => (.error (.wrapGetRecordID e), lookupLog)
  | .ok recordID =>
    let body : DOPutBody :=
      { type := recordType, name := d.host, data := lib.ipToString ip }
    match encodeError with
    | some m => (.error (.requestEncode m), lookupLog)
    | none =>
      match wPut.reqError with
      | some m => (.error (.requestCreate m), lookupLog)
      | none =>
        let log := lookupLog ++ [.put (doPutRequestOf d recordID body)]
        match wPut.doError with
        | some m => (.error (.clientDo m), log)
        | none =>
          if wPut.statusCode ≠ 200 then
            (.error (.badHTTPStatus wPut.statusCode wPut.bodyLine), log)
          else
            match wPut.decoded with
            | .error m => (.error (.unmarshalResponse m), log)
            | .ok dataStr =>
              let newIP := lib.parseIP dataStr
              if lib.isNil newIP then
                (.error (.updatedIPMalformed dataStr), log)
              else if !lib.ipEqual newIP ip then
                (.error (.updatedIPMismatch (lib.ipToString newIP)
                  (lib.ipToString ip)), log)
              else
                (.ok newIP, log)

/-! ## Concrete instantiation used for evaluation -/

/-- A concrete, fully computable instantiation of the net library on
`Nat` for evaluating the adapters on concrete inputs: 0 plays the nil
net.IP value, 1 renders as "1.2.3.4" and 2 as "5.6.7.8". -/
def natLib : NetLib Nat where
  parseIP := fun s => if s = "1.2.3.4" then 1 else if s = "5.6.7.8" then 2 else 0
  isNil := fun x => decide (x = 0)
  ipEqual := fun a b => decide (a = b)
  ipToString := fun x =>
    if x = 1 then "1.2.3.4" else if x = 2 then "5.6.7.8" else "<nil>"
  isIPv4 := fun x => decide (x ≠ 0)

/-- A concrete namecheap adapter value with the provider-IP inference
flag enabled. -/
def ncExample : Namecheap :=
  { domain := "example.com", host := "www", ipVersion := .ip4,
    password := "pw", useProviderIP := true, matcher := fun _ => true }

/-- A concrete digitalOcean adapter value. -/
def doExample : DigitalOcean :=
  { domain := "example.org", host := "api", ipVersion := .ip4,
    token := "tok123" }

/-- A concrete HTTP exchange: status 200, body decoding to no in-band
error and reported IP "1.2.3.4". -/
def ncExchOk : HttpExchange NamecheapXML :=
  { reqError := none, doError := none, statusCode := 200, bodyLine := "",
    decoded := .ok { errorsErr := "", ipStr := "1.2.3.4" } }

/-- A concrete HTTP exchange: status 200, body decoding to no in-band
error and reported IP "5.6.7.8". -/
def ncExchOther : HttpExchange NamecheapXML :=
  { reqError := none, doError := none, statusCode := 200, bodyLine := "",
    decoded := .ok { errorsErr := "", ipStr := "5.6.7.8" } }

/-- A concrete lookup exchange returning one record with id 42. -/
def doLookupOk : HttpExchange DORecordList :=
  { reqError := none, doError := none, statusCode := 200, bodyLine := "",
    decoded := .ok { ids := [42] } }

/-- A concrete lookup exchange returning an empty record list. -/
def doLookupEmpty : HttpExchange DORecordList :=
  { reqError := none, doError := none, statusCode := 200, bodyLine := "",
    decoded := .ok { ids := [] } }

/-- A concrete mutation exchange echoing "1.2.3.4". -/
def doPutEcho : HttpExchange String :=
  { reqError := none, doError := none, statusCode := 200, bodyLine := "",
    decoded := .ok "1.2.3.4" }

/-- A concrete HTTP exchange: status 200 but the body carries a
populated in-band error field. -/
def ncExchErr : HttpExchange NamecheapXML :=
  { reqError := none, doError := none, statusCode := 200, bodyLine := "",
    decoded := .ok { errorsErr := "Domain name not found", ipStr := "1.2.3.4" } }

/-- A concrete HTTP exchange with the 2xx success status 201. -/
def ncExch201 : HttpExchange NamecheapXML :=
  { reqError := none, doError := none, statusCode := 201, bodyLine := "Created",
    decoded := .ok { errorsErr := "", ipStr := "1.2.3.4" } }

/-- The lookup request of the concrete example run. -/
def doLookupReqEx : DOLookupRequest := doLookupRequest doExample "A"

/-- The mutation request of the concrete example run. -/
def doPutReqEx : DOPutRequest :=
  { scheme := "https", apiHost := "api.digitalocean.com",
    domain := "example.org", recordID := 42,
    body := { type := "A", name := "api", data := "1.2.3.4" } }

/-! ## Helper lemmas -/

/-- Success of the namecheap Update implies the returned IP was parsed
from the response and, whenever the ip argument was non-nil, equals
it. -/
theorem namecheapUpdate_ok_imp {γ : Type} (lib : NetLib γ) (n : Namecheap)
    (ip : γ) (w : HttpExchange NamecheapXML) (q : γ)
    (h : namecheapUpdate lib n ip w = .ok q) :
    lib.isNil ip = true ∨ lib.ipEqual ip q = true := by
  unfold namecheapUpdate at h
  repeat' (first | (split at h) | simp_all)
  all_goals cases hb : lib.isNil ip <;> simp_all

/-- Success of the digitalOcean Update implies the echoed IP equals
the ip that was sent. -/
theorem digitalOceanUpdate_ok_imp {γ : Type} (lib : NetLib γ)
    (d : DigitalOcean) (ip : γ) (wLookup : HttpExchange DORecordList)
    (encodeError : Option String) (wPut : HttpExchange String) (q : γ)
    (h : (digitalOceanUpdate lib d ip wLookup encodeError wPut).1 = .ok q) :
    lib.ipEqual q ip = true := by
  unfold digitalOceanUpdate at h
  repeat' (first | (split at h) | simp_all)

/-- A string of length zero is the empty string. -/
theorem string_length_zero_eq (s : String) (h : s.length = 0) : s = "" := by
  cases s with
  | mk data =>
    cases data with
    | nil => rfl
    | cons c cs => simp [String.length] at h

/-! ## Claim theorems -/

/-- C1: for both adapters, whenever the caller supplied a requested IP
(a non-nil ip argument) and the vendor's reported IP differs from it,
Update returns the mismatch error and never a success outcome; Update
never reports success unless the vendor's reported IP equals the
requested one. The four conjuncts: (a) Namecheap success implies the
reported IP equals the non-nil requested IP; (b) Namecheap returns
ErrIPReceivedMismatch whenever the response path reaches the
comparison with a differing reported IP; (c) DigitalOcean success
implies the echoed IP equals the sent IP; (d) DigitalOcean returns the
mismatch error whenever the mutation response echoes a differing
IP. -/
theorem C1_mismatch_never_success {γ : Type} (lib : NetLib γ) (n : Namecheap)
    (d : DigitalOcean) (ip : γ) (w : HttpExchange NamecheapXML)
    (wL : HttpExchange DORecordList) (encErr : Option String)
    (wP : HttpExchange String) :
    (∀ q, lib.isNil ip = false → namecheapUpdate lib n ip w = .ok q →
      lib.ipEqual ip q = true)
    ∧ (∀ xml, lib.isNil ip = false → w.reqError = none → w.doError = none →
        w.statusCode = 200 → w.decoded = .ok xml → xml.errorsErr = "" →
        lib.isNil (lib.parseIP xml.ipStr) = false →
        lib.ipEqual ip (lib.parseIP xml.ipStr) = false →
        namecheapUpdate lib n ip w =
          .error (.ipReceivedMismatch (lib.ipToString (lib.parseIP xml.ipStr))))
    ∧ (∀ q, (digitalOceanUpdate lib d ip wL encErr wP).1 = .ok q →
        lib.ipEqual q ip = true)
    ∧ (∀ rid s, getRecordID d (doRecordType lib ip) wL = .ok rid →
        encErr = none → wP.reqError = none → wP.doError = none →
        wP.statusCode = 200 → wP.decoded = .ok s →
        lib.isNil (lib.parseIP s) = false →
        lib.ipEqual (lib.parseIP s) ip = false →
        (digitalOceanUpdate lib d ip wL encErr wP).1 =
          .error (.updatedIPMismatch (lib.ipToString (lib.parseIP s))
            (lib.ipToString ip))) := by
  refine ⟨?_, ?_, ?_, ?_⟩
  · intro q hnil h
    rcases namecheapUpdate_ok_imp lib n ip w q h with h1 | h1
    · rw [hnil] at h1; exact absurd h1 (by simp)
    · exact h1
  · intro xml hnil hre hdo hsc hdec herr hpn hne
    unfold namecheapUpdate
    rw [hre, hdo, hsc, hdec]
    simp [herr, hpn, hne, hnil]
  · intro q h
    exact digitalOceanUpdate_ok_imp lib d ip wL encErr wP q h
  · intro rid s hrid henc hre hdo hsc hdec hpn hne
    simp only [digitalOceanUpdate, hrid, henc, hre, hdo, hsc, hdec]
    simp [hpn, hne]

/-- C1 witness: concrete instances of each conjunct, applying the
theorem at the Nat instantiation. -/
theorem C1_mismatch_never_success_witness :
    natLib.ipEqual 1 1 = true ∧
    namecheapUpdate natLib ncExample 1 ncExchOther =
      .error (.ipReceivedMismatch "5.6.7.8") ∧
    (digitalOceanUpdate natLib doExample 2 doLookupOk none doPutEcho).1 =
      .error (.updatedIPMismatch "1.2.3.4" "5.6.7.8") := by
  have H1 := C1_mismatch_never_success natLib ncExample doExample 1 ncExchOk
    doLookupOk none doPutEcho
  have HB := C1_mismatch_never_success natLib ncExample doExample 1 ncExchOther
    doLookupOk none doPutEcho
  have H2 := C1_mismatch_never_success natLib ncExample doExample 2 ncExchOther
    doLookupOk none doPutEcho
  refine ⟨H1.1 1 rfl rfl, ?_, ?_⟩
  · exact HB.2.1 { errorsErr := "", ipStr := "5.6.7.8" } rfl rfl rfl rfl rfl rfl
      rfl rfl
  · exact H2.2.2.2 42 "1.2.3.4" rfl rfl rfl rfl rfl rfl rfl rfl

/-- C2 counterexample: the claim says that with useProviderIP enabled,
Update succeeds with the vendor-reported IP even when it differs from
the caller's ip argument. On the code, the mismatch comparison
`ip != nil && !ip.Equal(newIP)` does not consult useProviderIP:
with useProviderIP = true, a caller-supplied IP (model value 1,
"1.2.3.4") and a vendor reporting "5.6.7.8", Update fails with the
mismatch error instead of succeeding. -/
theorem C2_counterexample :
    ncExample.useProviderIP = true ∧
    namecheapUpdate natLib ncExample 1 ncExchOther =
      .error (.ipReceivedMismatch "5.6.7.8") :=
  ⟨rfl, rfl⟩

/-- C2 (amended): for the simple (Namecheap) adapter, the mismatch
failure occurs exactly when the caller's ip argument is non-nil and
the vendor's reported IP differs from it; the useProviderIP flag plays
no role in the comparison (the adapter n, and hence its flag, is
arbitrary on both sides of the equivalence). -/
theorem C2_mismatch_iff_nonnil_differs {γ : Type} (lib : NetLib γ)
    (n : Namecheap) (ip : γ) (w : HttpExchange NamecheapXML)
    (xml : NamecheapXML) (hre : w.reqError = none) (hdo : w.doError = none)
    (hsc : w.statusCode = 200) (hdec : w.decoded = .ok xml)
    (herr : xml.errorsErr = "")
    (hpn : lib.isNil (lib.parseIP xml.ipStr) = false) :
    namecheapUpdate lib n ip w =
        .error (.ipReceivedMismatch (lib.ipToString (lib.parseIP xml.ipStr)))
      ↔ (lib.isNil ip = false ∧
        lib.ipEqual ip (lib.parseIP xml.ipStr) = false) := by
  unfold namecheapUpdate
  rw [hre, hdo, hsc, hdec]
  simp [herr, hpn]

/-- C2 amended-claim witness: with useProviderIP enabled and a non-nil
caller IP differing from the reported one, the mismatch error obtains;
applying the equivalence at the Nat instantiation. -/
theorem C2_mismatch_iff_nonnil_differs_witness :
    namecheapUpdate natLib ncExample 1 ncExchOther =
      .error (.ipReceivedMismatch "5.6.7.8") :=
  (C2_mismatch_iff_nonnil_differs natLib ncExample 1 ncExchOther
    { errorsErr := "", ipStr := "5.6.7.8" } rfl rfl rfl rfl rfl rfl).mpr
    ⟨rfl, rfl⟩

/-- C3: New fails immediately whenever the requested IP version is
unsupported by the vendor (IPv6 for Namecheap), the configuration blob
cannot be parsed, or the secret fails the vendor's shape check
(matcher-rejected password for Namecheap, empty token for
DigitalOcean); and these are the only failure cases, so a
configuration failing validation never yields an adapter. New takes no
HTTP exchange at all — in this embedding the network-call path is
only reachable through Update on a successfully constructed adapter,
so a failing New performs no network call. -/
theorem C3_new_fails_without_network (dataN : Except String NamecheapSettings)
    (dataD : Except String DOSettings) (domain host : String) (v : IPVersion)
    (matcher : String → Bool) :
    (v = .ip6 →
      namecheapNew dataN domain host v matcher = .error .ipv6NotSupported)
    ∧ (∀ m, v ≠ .ip6 → dataN = .error m →
        namecheapNew dataN domain host v matcher = .error (.unmarshalConfig m))
    ∧ (∀ s, v ≠ .ip6 → dataN = .ok s → matcher s.password = false →
        namecheapNew dataN domain host v matcher = .error .malformedPassword)
    ∧ (∀ e, namecheapNew dataN domain host v matcher = .error e →
        v = .ip6 ∨ (∃ m, dataN = .error m) ∨
          ∃ s, dataN = .ok s ∧ matcher s.password = false)
    ∧ (∀ m, dataD = .error m →
        digitalOceanNew dataD domain host v = .error (.unmarshalConfig m))
    ∧ (∀ s, dataD = .ok s → s.token = "" →
        digitalOceanNew dataD domain host v = .error .emptyToken)
    ∧ (∀ e, digitalOceanNew dataD domain host v = .error e →
        (∃ m, dataD = .error m) ∨ ∃ s, dataD = .ok s ∧ s.token = "") := by
  refine ⟨?_, ?_, ?_, ?_, ?_, ?_, ?_⟩
  · intro hv; simp [namecheapNew, hv]
  · intro m hv hd; simp [namecheapNew, hv, hd]
  · intro s hv hd hm
    simp [namecheapNew, hv, hd, Namecheap.isValid, hm]
  · intro e h
    by_cases hv : v = .ip6
    · exact Or.inl hv
    · cases hd : dataN with
      | error m => exact Or.inr (Or.inl ⟨m, rfl⟩)
      | ok s =>
        refine Or.inr (Or.inr ⟨s, rfl, ?_⟩)
        by_cases hm : matcher s.password = true
        · rw [hd] at h
          simp [namecheapNew, hv, Namecheap.isValid, hm] at h
        · simpa using hm
  · intro m hd; simp [digitalOceanNew, hd]
  · intro s hd ht
    simp [digitalOceanNew, hd, DigitalOcean.isValid, ht]
  · intro e h
    cases hd : dataD with
    | error m => exact Or.inl ⟨m, rfl⟩
    | ok s =>
      refine Or.inr ⟨s, rfl, ?_⟩
      by_cases ht : s.token = ""
      · exact ht
      · rw [hd] at h
        have hlen : s.token.length ≠ 0 := fun h0 =>
          ht (string_length_zero_eq s.token h0)
        simp [digitalOceanNew, DigitalOcean.isValid, hlen] at h

/-- C3 witness: concrete failing configurations for each failure kind,
by applying the theorem. -/
theorem C3_new_fails_without_network_witness :
    namecheapNew (.ok ⟨"pw", false⟩) "example.com" "www" .ip6
        (fun _ => true) = .error .ipv6NotSupported ∧
    namecheapNew (.ok ⟨"pw", false⟩) "example.com" "www" .ip4
        (fun _ => false) = .error .malformedPassword ∧
    digitalOceanNew (.ok ⟨""⟩) "example.org" "api" .ip4 =
      .error .emptyToken := by
  refine ⟨?_, ?_, ?_⟩
  · exact (C3_new_fails_without_network (.ok ⟨"pw", false⟩) (.ok ⟨""⟩)
      "example.com" "www" .ip6 (fun _ => true)).1 rfl
  · exact (C3_new_fails_without_network (.ok ⟨"pw", false⟩) (.ok ⟨""⟩)
      "example.com" "www" .ip4 (fun _ => false)).2.2.1 ⟨"pw", false⟩
      (by decide) rfl rfl
  · exact (C3_new_fails_without_network (.ok ⟨"pw", false⟩) (.ok ⟨""⟩)
      "example.org" "api" .ip4 (fun _ => false)).2.2.2.2.2.1 ⟨""⟩ rfl rfl

/-- C4: for the two-step (DigitalOcean) adapter, whenever getRecordID
returns any error, Update returns that error wrapped in ErrGetRecordID
and no mutation (PUT) request ever appears in the request log: the
mutation call is never issued before the lookup completes
successfully. -/
theorem C4_no_mutation_on_lookup_error {γ : Type} (lib : NetLib γ)
    (d : DigitalOcean) (ip : γ) (wL : HttpExchange DORecordList)
    (encErr : Option String) (wP : HttpExchange String) (e : Err)
    (h : getRecordID d (doRecordType lib ip) wL = .error e) :
    (digitalOceanUpdate lib d ip wL encErr wP).1 = .error (.wrapGetRecordID e)
    ∧ ∀ r ∈ (digitalOceanUpdate lib d ip wL encErr wP).2,
        r.isPut = false := by
  simp only [digitalOceanUpdate, h]
  constructor
  · trivial
  · intro r hr
    by_cases hq : wL.reqError = none <;> simp [hq] at hr
    simp [hr, DORequestLog.isPut]

/-- C4 witness: an empty lookup result set ("not found") at concrete
inputs; Update fails wrapped and the log holds no PUT. -/
theorem C4_no_mutation_on_lookup_error_witness :
    (digitalOceanUpdate natLib doExample 1 doLookupEmpty none doPutEcho).1 =
      .error (.wrapGetRecordID .notFound) :=
  (C4_no_mutation_on_lookup_error natLib doExample 1 doLookupEmpty none
    doPutEcho .notFound rfl).1

/-- C5: the two-step adapter's lookup classifies its outcomes: an
empty result set yields ErrNotFound, a first result row with id 0
yields the distinct ErrDomainIDNotFound, and a first row with a
nonzero id is returned with no error; the two error kinds are distinct
values and are never confused. -/
theorem C5_lookup_error_classification (d : DigitalOcean) (rt : String)
    (w : HttpExchange DORecordList) (hre : w.reqError = none)
    (hdo : w.doError = none) (hsc : w.statusCode = 200) :
    (∀ recs, w.decoded = .ok recs → recs.ids = [] →
      getRecordID d rt w = .error .notFound)
    ∧ (∀ recs rest, w.decoded = .ok recs → recs.ids = 0 :: rest →
      getRecordID d rt w = .error .domainIDNotFound)
    ∧ (∀ recs id0 rest, w.decoded = .ok recs → recs.ids = id0 :: rest →
      id0 ≠ 0 → getRecordID d rt w = .ok id0)
    ∧ Err.notFound ≠ Err.domainIDNotFound := by
  refine ⟨?_, ?_, ?_, by simp⟩
  · intro recs hdec hids
    unfold getRecordID
    rw [hre, hdo, hsc, hdec]
    simp [hids]
  · intro recs rest hdec hids
    unfold getRecordID
    rw [hre, hdo, hsc, hdec]
    simp [hids]
  · intro recs id0 rest hdec hids hnz
    unfold getRecordID
    rw [hre, hdo, hsc, hdec]
    simp [hids, hnz]

/-- C5 witness: the three outcomes at concrete lookup responses. -/
theorem C5_lookup_error_classification_witness :
    getRecordID doExample "A" doLookupEmpty = .error .notFound ∧
    getRecordID doExample "A"
      { reqError := none, doError := none, statusCode := 200, bodyLine := "",
        decoded := .ok ⟨[0, 7]⟩ } = .error .domainIDNotFound ∧
    getRecordID doExample "A" doLookupOk = .ok 42 := by
  have H0 := C5_lookup_error_classification doExample "A" doLookupEmpty
    rfl rfl rfl
  have H1 := C5_lookup_error_classification doExample "A"
    { reqError := none, doError := none, statusCode := 200, bodyLine := "",
      decoded := .ok ⟨[0, 7]⟩ } rfl rfl rfl
  have H2 := C5_lookup_error_classification doExample "A" doLookupOk
    rfl rfl rfl
  exact ⟨H0.1 ⟨[]⟩ rfl rfl, H1.2.1 ⟨[0, 7]⟩ [7] rfl rfl,
    H2.2.2.1 ⟨[42]⟩ 42 [] rfl rfl (by decide)⟩

/-- C6: for the simple adapter, a populated in-band error field in the
decoded response body takes precedence over the HTTP 200 status:
Update returns ErrUnsuccessfulResponse carrying the vendor's message.
The conclusion does not involve the reported IP and holds for every
net library, so the reported IP is neither parsed nor returned. -/
theorem C6_inband_error_precedence {γ : Type} (lib : NetLib γ)
    (n : Namecheap) (ip : γ) (w : HttpExchange NamecheapXML)
    (xml : NamecheapXML) (hre : w.reqError = none) (hdo : w.doError = none)
    (hsc : w.statusCode = 200) (hdec : w.decoded = .ok xml)
    (herr : xml.errorsErr ≠ "") :
    namecheapUpdate lib n ip w = .error (.unsuccessfulResponse xml.errorsErr) := by
  unfold namecheapUpdate
  rw [hre, hdo, hsc, hdec]
  simp [herr]

/-- C6 witness: HTTP 200 with a populated in-band error field at
concrete inputs. -/
theorem C6_inband_error_precedence_witness :
    namecheapUpdate natLib ncExample 1 ncExchErr =
      .error (.unsuccessfulResponse "Domain name not found") :=
  C6_inband_error_precedence natLib ncExample 1 ncExchErr
    ⟨"Domain name not found", "1.2.3.4"⟩ rfl rfl rfl rfl (by decide)

/-- C7 counterexample: the claim says the bad-HTTP-status failure
occurs exactly on non-2xx statuses and that a successful (2xx) status
never by itself causes it. The code checks `StatusCode != 200`: at
the 2xx status 201, with a request and client call that succeed and a
perfectly well-formed body, Update nevertheless fails with
ErrBadHTTPStatus carrying 201. -/
theorem C7_counterexample :
    (200 ≤ 201 ∧ 201 < 300) ∧
    namecheapUpdate natLib ncExample 1 ncExch201 =
      .error (.badHTTPStatus 201 "Created") :=
  ⟨⟨by decide, by decide⟩, rfl⟩

/-- C7 (amended): for every HTTP exchange in both adapter patterns
(the Namecheap GET, the DigitalOcean lookup GET, and the DigitalOcean
mutation PUT), the call fails with the bad-HTTP-status error carrying
the status code and the single-line body snapshot exactly when the
response status differs from 200 — not merely when it is non-2xx. -/
theorem C7_badstatus_iff_status_ne_200 {γ : Type} (lib : NetLib γ)
    (n : Namecheap) (d : DigitalOcean) (ip : γ)
    (w : HttpExchange NamecheapXML) (rt : String)
    (wL : HttpExchange DORecordList) (encErr : Option String)
    (wP : HttpExchange String) :
    (w.reqError = none → w.doError = none →
      (namecheapUpdate lib n ip w =
          .error (.badHTTPStatus w.statusCode w.bodyLine) ↔
        w.statusCode ≠ 200))
    ∧ (wL.reqError = none → wL.doError = none →
      (getRecordID d rt wL =
          .error (.badHTTPStatus wL.statusCode wL.bodyLine) ↔
        wL.statusCode ≠ 200))
    ∧ (∀ rid, getRecordID d (doRecordType lib ip) wL = .ok rid →
        encErr = none → wP.reqError = none → wP.doError = none →
      ((digitalOceanUpdate lib d ip wL encErr wP).1 =
          .error (.badHTTPStatus wP.statusCode wP.bodyLine) ↔
        wP.statusCode ≠ 200)) := by
  refine ⟨?_, ?_, ?_⟩
  · intro hre hdo
    unfold namecheapUpdate
    rw [hre, hdo]
    constructor
    · intro heq
      by_contra hsc
      rw [hsc] at heq
      simp only [ne_eq, not_true_eq_false, if_false] at heq
      repeat' (first | (split at heq) | simp_all)
    · intro hsc
      simp [hsc]
  · intro hre hdo
    unfold getRecordID
    rw [hre, hdo]
    constructor
    · intro heq
      by_contra hsc
      rw [hsc] at heq
      simp only [ne_eq, not_true_eq_false, if_false] at heq
      repeat' (first | (split at heq) | simp_all)
    · intro hsc
      simp [hsc]
  · intro rid hrid henc hre hdo
    simp only [digitalOceanUpdate, hrid, henc, hre, hdo]
    constructor
    · intro heq
      by_contra hsc
      rw [hsc] at heq
      simp only [ne_eq, not_true_eq_false, if_false] at heq
      repeat' (first | (split at heq) | simp_all)
    · intro hsc
      simp [hsc]

/-- C7 amended-claim witness: at concrete inputs, status 201 produces
the bad-status error on the Namecheap exchange, by the equivalence. -/
theorem C7_badstatus_iff_status_ne_200_witness :
    namecheapUpdate natLib ncExample 1 ncExch201 =
      .error (.badHTTPStatus 201 "Created") :=
  ((C7_badstatus_iff_status_ne_200 natLib ncExample doExample 1 ncExch201
    "A" doLookupOk none doPutEcho).1 rfl rfl).mpr (by decide)

/-- C8: for every domain, host, ipVersion and configuration blob
accepted by New, the constructed adapter's Domain, Host and IPVersion
accessors return exactly the values supplied at construction, for both
adapters. -/
theorem C8_accessors_round_trip (dataN : Except String NamecheapSettings)
    (dataD : Except String DOSettings) (domain host : String) (v : IPVersion)
    (matcher : String → Bool) :
    (∀ n, namecheapNew dataN domain host v matcher = .ok n →
      n.Domain = domain ∧ n.Host = host ∧ n.IPVersion = v)
    ∧ (∀ d, digitalOceanNew dataD domain host v = .ok d →
      d.Domain = domain ∧ d.Host = host ∧ d.IPVersion = v) := by
  constructor
  · intro n h
    unfold namecheapNew at h
    repeat' (first
      | (split at h)
      | simp_all [Namecheap.Domain, Namecheap.Host, Namecheap.IPVersion])
    all_goals (cases h; exact ⟨rfl, rfl, rfl⟩)
  · intro d h
    unfold digitalOceanNew at h
    repeat' (first
      | (split at h)
      | simp_all [DigitalOcean.Domain, DigitalOcean.Host,
          DigitalOcean.IPVersion])
    all_goals (cases h; exact ⟨rfl, rfl, rfl⟩)

/-- C8 witness: concrete accepted configurations for both vendors. -/
theorem C8_accessors_round_trip_witness :
    (∃ n, namecheapNew (.ok ⟨"pw", false⟩) "example.com" "www" .ip4
        (fun _ => true) = .ok n ∧
      n.Domain = "example.com" ∧ n.Host = "www" ∧ n.IPVersion = .ip4) ∧
    (∃ d, digitalOceanNew (.ok ⟨"tok123"⟩) "example.org" "api" .ip4 = .ok d ∧
      d.Domain = "example.org" ∧ d.Host = "api" ∧ d.IPVersion = .ip4) := by
  have H := C8_accessors_round_trip (.ok ⟨"pw", false⟩) (.ok ⟨"tok123"⟩)
    "example.com" "www" .ip4 (fun _ => true)
  have H2 := C8_accessors_round_trip (.ok ⟨"pw", false⟩) (.ok ⟨"tok123"⟩)
    "example.org" "api" .ip4 (fun _ => true)
  constructor
  · exact ⟨_, rfl, H.1 _ rfl⟩
  · exact ⟨_, rfl, H2.2 _ rfl⟩

/-- C9: for the simple (Namecheap) adapter, a nil ip argument skips
the reported-vs-requested comparison entirely: whenever the status is
200, the body decodes with an empty in-band error field and the
reported IP parses as non-nil, Update succeeds and returns the
vendor-reported IP — for an arbitrary adapter value, hence regardless
of the useProviderIP flag. -/
theorem C9_nil_ip_skips_comparison {γ : Type} (lib : NetLib γ)
    (n : Namecheap) (ip : γ) (w : HttpExchange NamecheapXML)
    (xml : NamecheapXML) (hnil : lib.isNil ip = true)
    (hre : w.reqError = none) (hdo : w.doError = none)
    (hsc : w.statusCode = 200) (hdec : w.decoded = .ok xml)
    (herr : xml.errorsErr = "")
    (hpn : lib.isNil (lib.parseIP xml.ipStr) = false) :
    namecheapUpdate lib n ip w = .ok (lib.parseIP xml.ipStr) := by
  unfold namecheapUpdate
  rw [hre, hdo, hsc, hdec]
  simp [herr, hpn, hnil]

/-- C9 witness: nil ip (model value 0) with useProviderIP enabled and
a reported IP differing from nothing the caller supplied: Update
returns the reported IP. -/
theorem C9_nil_ip_skips_comparison_witness :
    namecheapUpdate natLib ncExample 0 ncExchOther = .ok 2 :=
  C9_nil_ip_skips_comparison natLib ncExample 0 ncExchOther
    ⟨"", "5.6.7.8"⟩ rfl rfl rfl rfl rfl rfl rfl

/-- Every request a DigitalOcean Update call hands to the client is
either the lookup request (whose name filter is the fully-qualified
name) or the mutation request (whose body's name field is the bare
host). -/
theorem digitalOceanUpdate_log_mem {γ : Type} (lib : NetLib γ)
    (d : DigitalOcean) (ip : γ) (wL : HttpExchange DORecordList)
    (encErr : Option String) (wP : HttpExchange String) (r : DORequestLog)
    (hr : r ∈ (digitalOceanUpdate lib d ip wL encErr wP).2) :
    r = .lookup (doLookupRequest d (doRecordType lib ip)) ∨
      ∃ rid, r = .put (doPutRequestOf d rid
        ⟨doRecordType lib ip, d.host, lib.ipToString ip⟩) := by
  unfold digitalOceanUpdate at hr
  repeat' (first | (split at hr) | simp_all [doPutRequestOf])
  all_goals rcases hr with hr | hr <;>
    first
      | exact Or.inl hr
      | exact Or.inr ⟨_, hr⟩

/-- C10: for every DigitalOcean Update call, the lookup request
filters by the fully-qualified name (BuildDomainName of host and
domain) in its name query parameter, while the mutation request's
JSON body carries the bare host in its name field — and hence never
the fully-qualified name whenever the two differ. -/
theorem C10_lookup_fqdn_mutation_bare_host {γ : Type} (lib : NetLib γ)
    (d : DigitalOcean) (ip : γ) (wL : HttpExchange DORecordList)
    (encErr : Option String) (wP : HttpExchange String) :
    (∀ lr, DORequestLog.lookup lr ∈
        (digitalOceanUpdate lib d ip wL encErr wP).2 →
      lr.queryName = buildDomainName d.host d.domain)
    ∧ (∀ pr, DORequestLog.put pr ∈
        (digitalOceanUpdate lib d ip wL encErr wP).2 →
      pr.body.name = d.host ∧
        (d.host ≠ buildDomainName d.host d.domain →
          pr.body.name ≠ buildDomainName d.host d.domain)) := by
  constructor
  · intro lr hm
    rcases digitalOceanUpdate_log_mem lib d ip wL encErr wP _ hm
      with h | ⟨rid, h⟩
    · injection h with h2
      subst h2
      rfl
    · simp at h
  · intro pr hm
    rcases digitalOceanUpdate_log_mem lib d ip wL encErr wP _ hm
      with h | ⟨rid, h⟩
    · simp at h
    · injection h with h2
      subst h2
      exact ⟨rfl, fun hne => hne⟩

/-- C10 witness: the concrete example run issues the lookup filtered
by the fully-qualified name and the mutation carrying the bare host,
by the theorem applied to both logged requests. -/
theorem C10_lookup_fqdn_mutation_bare_host_witness :
    doLookupReqEx.queryName = buildDomainName "api" "example.org" ∧
    doPutReqEx.body.name = "api" := by
  have H := C10_lookup_fqdn_mutation_bare_host natLib doExample 1 doLookupOk
    none doPutEcho
  have hlog : (digitalOceanUpdate natLib doExample 1 doLookupOk
      none doPutEcho).2 = [.lookup doLookupReqEx, .put doPutReqEx] := rfl
  constructor
  · exact H.1 doLookupReqEx (by rw [hlog]; simp)
  · exact (H.2 doPutReqEx (by rw [hlog]; simp)).1

end DdnsUpdater
